import Mathlib

/-!
Verification of the canvas lifecycle and render-loop controller of the
webgl-rc example application (src/webgl-rc-example/ui/canvas.tsx).

The component is a React function component `Canvas` whose `useEffect`
body performs, in order:
  1. `let context = init(canvas)` — may throw; nothing later runs then;
  2. `let size = [0, 0]` — the SurfaceSize variable;
  3. definitions of `resize`, `requestResize`, `requestRepaint` and
     `let disposed = false`;
  4. `requestRepaint()` — queues one animation-frame callback;
  5. `requestResize()` — runs `resize()` now and `setTimeout(resize, 200)`;
  6. registers the `resize` and `orientationchange` window listeners.
The cleanup returned by the effect sets `disposed = true`, removes both
listeners, then calls `context.free()`.

The host is single threaded: callbacks (animation frames, timers, window
events, unmount) run one at a time.  We embed the component as a state
machine driven by a list of such events.  Machine integers of the host
are exact here: `clientWidth`/`clientHeight` are DOM integers (ℕ) and
`devicePixelRatio` is modelled as an exact rational (ℚ), so products such
as `321 * (3/2)` are computed exactly as the floating point host would.
-/

/-- One schedulable occurrence in the single-threaded host event loop.
`setEnv` models the environment changing the layout size or the device
pixel ratio; `frame` is a queued `requestAnimationFrame` callback firing
(with a flag telling whether the `paint` call inside it throws); `timer`
is a queued `setTimeout(resize, 200)` callback firing; `viewport` is a
window `resize`/`orientationchange` event; `mount` runs the effect body
(with a flag telling whether `init` throws) and `unmount` runs the
cleanup. -/
inductive Event where
  | setEnv (cw ch : ℕ) (d : ℚ)
  | mount (initThrows : Bool)
  | frame (paintThrows : Bool)
  | timer
  | viewport
  | unmount
deriving DecidableEq, Repr

/-- The observable state of one `Canvas` mount cycle together with the
instrumentation needed to state the properties: call counters for `init`
and `context.free()`, listener add/remove counters, and logs of every
SurfaceSize assignment, every resize-performed write, and every `paint`
invocation (recording the size it received).  `freeLog` records, for
each `context.free()` call, the value of `disposed` at the moment of the
call. -/
structure CanvasState where
  clientW : ℕ
  clientH : ℕ
  density : ℚ
  mounted : Bool
  disposed : Bool
  listeners : Bool
  size : ℚ × ℚ
  attr : ℤ × ℤ
  pendingFrames : ℕ
  pendingTimers : ℕ
  initCalls : ℕ
  initError : Bool
  freeCalls : ℕ
  addCount : ℕ
  removeCount : ℕ
  writeLog : List (ℚ × ℚ)
  resizeLog : List (ℚ × ℚ)
  paintLog : List (ℚ × ℚ)
  freeLog : List Bool
deriving DecidableEq, Repr

/-- JavaScript `Number.prototype.toFixed(0)`: the nearest integer,
with ties rounded toward positive infinity. -/
def toFixed0 (q : ℚ) : ℤ := ⌊q + 1 / 2⌋

/-- `resize` from canvas.tsx: if not disposed, recompute the size from
the current client dimensions and device pixel ratio, store it, and
write the rounded values into the width/height attributes. -/
def resize (s : CanvasState) : CanvasState :=
  if s.disposed then s
  else
    let w := (s.clientW : ℚ) * s.density
    let h := (s.clientH : ℚ) * s.density
    { s with
      size := (w, h)
      attr := (toFixed0 w, toFixed0 h)
      writeLog := (w, h) :: s.writeLog
      resizeLog := (w, h) :: s.resizeLog }

/-- `requestResize` from canvas.tsx: run `resize()` immediately, then
schedule one more `resize` via `setTimeout(resize, 200)`. -/
def requestResize (s : CanvasState) : CanvasState :=
  let s1 := resize s
  { s1 with pendingTimers := s1.pendingTimers + 1 }

/-- `requestRepaint` from canvas.tsx: queue one animation-frame
callback. -/
def requestRepaint (s : CanvasState) : CanvasState :=
  { s with pendingFrames := s.pendingFrames + 1 }

/-- The body of the queued animation-frame callback: if not disposed,
invoke `paint(context, size[0], size[1])` and then `requestRepaint()`.
When `paint` throws, the exception unwinds before `requestRepaint()`
runs, so no new frame is queued. -/
def frameCallback (s : CanvasState) (paintThrows : Bool) : CanvasState :=
  if s.pendingFrames = 0 then s
  else
    let s1 := { s with pendingFrames := s.pendingFrames - 1 }
    if s1.disposed then s1
    else
      let s2 := { s1 with paintLog := s1.size :: s1.paintLog }
      if paintThrows then s2 else requestRepaint s2

/-- The body of the queued `setTimeout(resize, 200)` callback: just
`resize()`. -/
def timerCallback (s : CanvasState) : CanvasState :=
  if s.pendingTimers = 0 then s
  else resize { s with pendingTimers := s.pendingTimers - 1 }

/-- A window `resize`/`orientationchange` event: it reaches
`requestResize` only while the listeners are registered. -/
def viewportEvent (s : CanvasState) : CanvasState :=
  if s.listeners then requestResize s else s

/-- The `useEffect` body.  `init` is called first; if it throws, nothing
else of the body runs and the error propagates to the caller.  Otherwise
`size` is initialised to `[0, 0]`, `disposed` to `false`, one frame is
requested, `requestResize()` runs, and both listeners are added. -/
def mountEffect (s : CanvasState) (initThrows : Bool) : CanvasState :=
  if s.mounted then s
  else
    let s0 := { s with initCalls := s.initCalls + 1 }
    if initThrows then { s0 with initError := true }
    else
      let s1 := { s0 with
        mounted := true
        disposed := false
        size := ((0 : ℚ), (0 : ℚ))
        writeLog := ((0 : ℚ), (0 : ℚ)) :: s0.writeLog }
      let s2 := requestRepaint s1
      let s3 := requestResize s2
      { s3 with listeners := true, addCount := s3.addCount + 1 }

/-- The effect cleanup (runs only when the effect body completed):
first `disposed = true`, then both listeners are removed, then
`context.free()` is called.  `freeLog` records the value of `disposed`
observed at the moment of the `free` call. -/
def cleanupEffect (s : CanvasState) : CanvasState :=
  if s.mounted then
    let s1 := { s with disposed := true }
    let s2 := { s1 with listeners := false, removeCount := s1.removeCount + 1 }
    { s2 with
      mounted := false
      freeCalls := s2.freeCalls + 1
      freeLog := s2.disposed :: s2.freeLog }
  else s

/-- One step of the single-threaded host event loop. -/
def step (s : CanvasState) : Event → CanvasState
  | Event.setEnv cw ch d => { s with clientW := cw, clientH := ch, density := d }
  | Event.mount initThrows => mountEffect s initThrows
  | Event.frame paintThrows => frameCallback s paintThrows
  | Event.timer => timerCallback s
  | Event.viewport => viewportEvent s
  | Event.unmount => cleanupEffect s

/-- The state before anything has happened. -/
def init0 : CanvasState where
  clientW := 0
  clientH := 0
  density := 1
  mounted := false
  disposed := false
  listeners := false
  size := ((0 : ℚ), (0 : ℚ))
  attr := ((0 : ℤ), (0 : ℤ))
  pendingFrames := 0
  pendingTimers := 0
  initCalls := 0
  initError := false
  freeCalls := 0
  addCount := 0
  removeCount := 0
  writeLog := []
  resizeLog := []
  paintLog := []
  freeLog := []

/-- Run a list of events from a given state. -/
def runFrom (s : CanvasState) (t : List Event) : CanvasState :=
  t.foldl step s

/-- Run a list of events from the initial state. -/
def run (t : List Event) : CanvasState := runFrom init0 t

/-- Events that are neither a mount nor an unmount. -/
def nonLifecycle : Event → Prop
  | Event.mount _ => False
  | Event.unmount => False
  | _ => True

instance (e : Event) : Decidable (nonLifecycle e) := by
  cases e <;> simp [nonLifecycle] <;> infer_instance

/-- Events that are not a mount. -/
def nonMount : Event → Prop
  | Event.mount _ => False
  | _ => True

instance (e : Event) : Decidable (nonMount e) := by
  cases e <;> simp [nonMount] <;> infer_instance

/-- A full mount/unmount cycle: any non-lifecycle events before the
mount, between mount and unmount, and after the unmount. -/
def oneCycleTrace (pre mid post : List Event) : List Event :=
  pre ++ Event.mount false :: mid ++ Event.unmount :: post

/-- The stored SurfaceSize always equals the most recently completed
write (the head of the write log): width and height are assigned
together, so no state ever pairs a new width with an old height. -/
def sizeMatchesLastWrite (s : CanvasState) : Prop :=
  s.size = s.writeLog.headD ((0 : ℚ), (0 : ℚ))

/-- Events whose environment data is physically meaningful: the device
pixel ratio delivered by the host is never negative. -/
def envNonneg : Event → Prop
  | Event.setEnv _ _ d => 0 ≤ d
  | _ => True

/-- Non-negativity of the size state: the pixel ratio, the stored
SurfaceSize, and every size ever handed to `paint` are non-negative. -/
def nonnegState (s : CanvasState) : Prop :=
  0 ≤ s.density ∧ 0 ≤ s.size.1 ∧ 0 ≤ s.size.2 ∧
  ∀ p ∈ s.paintLog, 0 ≤ p.1 ∧ 0 ≤ p.2

/-- A state in the middle of a healthy running mount, with one frame
callback and one timer pending; used to instantiate universally
quantified theorems. -/
def runningState : CanvasState :=
  { init0 with mounted := true, listeners := true,
               pendingFrames := 1, pendingTimers := 1 }

/-- A state just after teardown with a frame callback and a timer still
queued (teardown does not cancel them); used to instantiate universally
quantified theorems. -/
def disposedState : CanvasState :=
  { init0 with disposed := true, pendingFrames := 1, pendingTimers := 1 }

/-! ### Basic lemmas about the step function -/

lemma runFrom_append (s : CanvasState) (a b : List Event) :
    runFrom s (a ++ b) = runFrom (runFrom s a) b :=
  List.foldl_append step s a b

lemma runFrom_cons (s : CanvasState) (e : Event) (t : List Event) :
    runFrom s (e :: t) = runFrom (step s e) t := rfl

lemma runFrom_nil (s : CanvasState) : runFrom s [] = s := rfl

/-- Fields of the state that only the mount effect and the cleanup can
change: every event that is neither a mount nor an unmount leaves the
call counters, the lifecycle booleans and the free log unchanged. -/
lemma step_preserves_lifecycle (s : CanvasState) (e : Event) (h : nonLifecycle e) :
    (step s e).initCalls = s.initCalls ∧ (step s e).freeCalls = s.freeCalls ∧
    (step s e).addCount = s.addCount ∧ (step s e).removeCount = s.removeCount ∧
    (step s e).mounted = s.mounted ∧ (step s e).disposed = s.disposed ∧
    (step s e).listeners = s.listeners ∧ (step s e).freeLog = s.freeLog ∧
    (step s e).initError = s.initError := by
  cases e <;>
    simp [nonLifecycle] at h <;>
    simp [step, frameCallback, timerCallback, viewportEvent, requestResize,
          requestRepaint, resize] <;>
    split_ifs <;> simp

lemma runFrom_preserves_lifecycle (t : List Event) (s : CanvasState)
    (h : ∀ e ∈ t, nonLifecycle e) :
    (runFrom s t).initCalls = s.initCalls ∧ (runFrom s t).freeCalls = s.freeCalls ∧
    (runFrom s t).addCount = s.addCount ∧ (runFrom s t).removeCount = s.removeCount ∧
    (runFrom s t).mounted = s.mounted ∧ (runFrom s t).disposed = s.disposed ∧
    (runFrom s t).listeners = s.listeners ∧ (runFrom s t).freeLog = s.freeLog ∧
    (runFrom s t).initError = s.initError := by
  induction t generalizing s with
  | nil => simp [runFrom_nil]
  | cons e t ih =>
    have he := h e (List.mem_cons_self e t)
    have ht : ∀ x ∈ t, nonLifecycle x := fun x hx => h x (List.mem_cons_of_mem e hx)
    have h1 := step_preserves_lifecycle s e he
    have h2 := ih (step s e) ht
    rw [runFrom_cons] at *
    constructor
    · rw [h2.1, h1.1]
    constructor
    · rw [h2.2.1, h1.2.1]
    constructor
    · rw [h2.2.2.1, h1.2.2.1]
    constructor
    · rw [h2.2.2.2.1, h1.2.2.2.1]
    constructor
    · rw [h2.2.2.2.2.1, h1.2.2.2.2.1]
    constructor
    · rw [h2.2.2.2.2.2.1, h1.2.2.2.2.2.1]
    constructor
    · rw [h2.2.2.2.2.2.2.1, h1.2.2.2.2.2.2.1]
    constructor
    · rw [h2.2.2.2.2.2.2.2.1, h1.2.2.2.2.2.2.2.1]
    · rw [h2.2.2.2.2.2.2.2.2, h1.2.2.2.2.2.2.2.2]

/-- After disposal, any event other than a mount keeps the disposed flag
set and performs no SurfaceSize write and no paint invocation. -/
lemma step_after_disposal (s : CanvasState) (e : Event) (hm : nonMount e)
    (hd : s.disposed = true) :
    (step s e).disposed = true ∧ (step s e).paintLog = s.paintLog ∧
    (step s e).resizeLog = s.resizeLog ∧ (step s e).writeLog = s.writeLog ∧
    (step s e).size = s.size := by
  cases e <;>
    simp [nonMount] at hm <;>
    simp [step, frameCallback, timerCallback, viewportEvent, requestResize,
          requestRepaint, resize, cleanupEffect, hd] <;>
    split_ifs <;> simp [hd]

lemma runFrom_after_disposal (t : List Event) (s : CanvasState)
    (hm : ∀ e ∈ t, nonMount e) (hd : s.disposed = true) :
    (runFrom s t).disposed = true ∧ (runFrom s t).paintLog = s.paintLog ∧
    (runFrom s t).resizeLog = s.resizeLog ∧ (runFrom s t).writeLog = s.writeLog ∧
    (runFrom s t).size = s.size := by
  induction t generalizing s with
  | nil => exact ⟨hd, rfl, rfl, rfl, rfl⟩
  | cons e t ih =>
    have h1 := step_after_disposal s e (hm e (List.mem_cons_self e t)) hd
    have h2 := ih (step s e) (fun x hx => hm x (List.mem_cons_of_mem e hx)) h1.1
    rw [runFrom_cons]
    exact ⟨h2.1, h2.2.1.trans h1.2.1, h2.2.2.1.trans h1.2.2.1,
      h2.2.2.2.1.trans h1.2.2.2.1, h2.2.2.2.2.trans h1.2.2.2.2⟩

/-- Once no animation-frame callback is pending, no event other than a
mount can create one, and no paint invocation can ever happen again. -/
lemma step_no_pending_frames (s : CanvasState) (e : Event) (hm : nonMount e)
    (hf : s.pendingFrames = 0) :
    (step s e).pendingFrames = 0 ∧ (step s e).paintLog = s.paintLog := by
  cases e <;>
    simp [nonMount] at hm <;>
    simp [step, frameCallback, timerCallback, viewportEvent, requestResize,
          requestRepaint, resize, cleanupEffect, hf] <;>
    split_ifs <;> simp [hf]

lemma runFrom_no_pending_frames (t : List Event) (s : CanvasState)
    (hm : ∀ e ∈ t, nonMount e) (hf : s.pendingFrames = 0) :
    (runFrom s t).pendingFrames = 0 ∧ (runFrom s t).paintLog = s.paintLog := by
  induction t generalizing s with
  | nil => exact ⟨hf, rfl⟩
  | cons e t ih =>
    have h1 := step_no_pending_frames s e (hm e (List.mem_cons_self e t)) hf
    have h2 := ih (step s e) (fun x hx => hm x (List.mem_cons_of_mem e hx)) h1.1
    rw [runFrom_cons]
    exact ⟨h2.1, h2.2.trans h1.2⟩

/-- Effect of a successful mount on the lifecycle fields. -/
lemma mountEffect_false_spec (s : CanvasState) (h : s.mounted = false) :
    (mountEffect s false).initCalls = s.initCalls + 1 ∧
    (mountEffect s false).mounted = true ∧
    (mountEffect s false).disposed = false ∧
    (mountEffect s false).listeners = true ∧
    (mountEffect s false).addCount = s.addCount + 1 ∧
    (mountEffect s false).freeCalls = s.freeCalls ∧
    (mountEffect s false).removeCount = s.removeCount ∧
    (mountEffect s false).freeLog = s.freeLog := by
  simp [mountEffect, requestRepaint, requestResize, resize, h]

/-- Effect of the cleanup on the lifecycle fields; in particular the
`free` call observes `disposed = true`. -/
lemma cleanupEffect_spec (s : CanvasState) (h : s.mounted = true) :
    (cleanupEffect s).disposed = true ∧ (cleanupEffect s).mounted = false ∧
    (cleanupEffect s).listeners = false ∧
    (cleanupEffect s).freeCalls = s.freeCalls + 1 ∧
    (cleanupEffect s).removeCount = s.removeCount + 1 ∧
    (cleanupEffect s).initCalls = s.initCalls ∧
    (cleanupEffect s).addCount = s.addCount ∧
    (cleanupEffect s).freeLog = true :: s.freeLog := by
  simp [cleanupEffect, h]

/-- Running a full cycle: `init` and `free` are each called exactly
once, `free` sees the disposed flag already set, the listeners are added
and removed exactly once, and the final state is disposed. -/
lemma oneCycle_spec (pre mid post : List Event)
    (hpre : ∀ e ∈ pre, nonLifecycle e) (hmid : ∀ e ∈ mid, nonLifecycle e)
    (hpost : ∀ e ∈ post, nonLifecycle e) :
    (run (oneCycleTrace pre mid post)).initCalls = 1 ∧
    (run (oneCycleTrace pre mid post)).freeCalls = 1 ∧
    (run (oneCycleTrace pre mid post)).freeLog = [true] ∧
    (run (oneCycleTrace pre mid post)).addCount = 1 ∧
    (run (oneCycleTrace pre mid post)).removeCount = 1 ∧
    (run (oneCycleTrace pre mid post)).listeners = false ∧
    (run (oneCycleTrace pre mid post)).disposed = true := by
  have hsplit : oneCycleTrace pre mid post
      = ((pre ++ [Event.mount false]) ++ mid ++ [Event.unmount]) ++ post := by
    simp [oneCycleTrace]
  rw [run, hsplit, runFrom_append, runFrom_append, runFrom_append, runFrom_append]
  have h0 := runFrom_preserves_lifecycle pre init0 hpre
  have e0 : (runFrom init0 pre).initCalls = 0 ∧ (runFrom init0 pre).freeCalls = 0 ∧
      (runFrom init0 pre).addCount = 0 ∧ (runFrom init0 pre).removeCount = 0 ∧
      (runFrom init0 pre).mounted = false ∧ (runFrom init0 pre).freeLog = [] := by
    simpa [init0] using
      ⟨h0.1, h0.2.1, h0.2.2.1, h0.2.2.2.1, h0.2.2.2.2.1, h0.2.2.2.2.2.2.2.1⟩
  have hm : runFrom (runFrom init0 pre) [Event.mount false]
      = mountEffect (runFrom init0 pre) false := rfl
  rw [hm]
  have h1 := mountEffect_false_spec (runFrom init0 pre) e0.2.2.2.2.1
  have h2 := runFrom_preserves_lifecycle mid (mountEffect (runFrom init0 pre) false) hmid
  have hu : runFrom (runFrom (mountEffect (runFrom init0 pre) false) mid) [Event.unmount]
      = cleanupEffect (runFrom (mountEffect (runFrom init0 pre) false) mid) := rfl
  rw [hu]
  have h3 := cleanupEffect_spec (runFrom (mountEffect (runFrom init0 pre) false) mid)
    (by rw [h2.2.2.2.2.1, h1.2.1])
  have h4 := runFrom_preserves_lifecycle post
    (cleanupEffect (runFrom (mountEffect (runFrom init0 pre) false) mid)) hpost
  refine ⟨?_, ?_, ?_, ?_, ?_, ?_, ?_⟩
  · rw [h4.1, h3.2.2.2.2.2.1, h2.1, h1.1, e0.1]
  · rw [h4.2.1, h3.2.2.2.1, h2.2.1, h1.2.2.2.2.2.1, e0.2.1]
  · rw [h4.2.2.2.2.2.2.2.1, h3.2.2.2.2.2.2.2, h2.2.2.2.2.2.2.2.1,
        h1.2.2.2.2.2.2.2, e0.2.2.2.2.2]
  · rw [h4.2.2.1, h3.2.2.2.2.2.2.1, h2.2.2.1, h1.2.2.2.2.1, e0.2.2.1]
  · rw [h4.2.2.2.1, h3.2.2.2.2.1, h2.2.2.2.1, h1.2.2.2.2.2.2.1, e0.2.2.2.1]
  · rw [h4.2.2.2.2.2.2.1, h3.2.2.1]
  · rw [h4.2.2.2.2.2.1, h3.1]

lemma resize_lastWrite (s : CanvasState) (h : sizeMatchesLastWrite s) :
    sizeMatchesLastWrite (resize s) := by
  unfold sizeMatchesLastWrite resize at *
  split_ifs with hd
  · exact h
  · simp

lemma step_lastWrite (s : CanvasState) (e : Event) (h : sizeMatchesLastWrite s) :
    sizeMatchesLastWrite (step s e) := by
  cases e with
  | setEnv cw ch d => exact h
  | mount b =>
    by_cases hm : s.mounted
    · simpa [step, mountEffect, hm] using h
    · cases b
      · have : sizeMatchesLastWrite (mountEffect s false) := by
          simp only [step, mountEffect, hm, if_false, Bool.false_eq_true, if_neg]
          exact resize_lastWrite _ (by simp [sizeMatchesLastWrite, requestRepaint])
        simpa [step] using this
      · simpa [step, mountEffect, hm] using h
  | frame b =>
    simp only [step, frameCallback]
    split_ifs <;> simp_all [sizeMatchesLastWrite, requestRepaint]
  | timer =>
    simp only [step, timerCallback]
    split_ifs with ht
    · exact h
    · exact resize_lastWrite _ h
  | viewport =>
    simp only [step, viewportEvent, requestResize]
    split_ifs with hl
    · exact resize_lastWrite _ h
    · exact h
  | unmount =>
    simp only [step, cleanupEffect]
    split_ifs <;> exact h

lemma runFrom_lastWrite (t : List Event) (s : CanvasState)
    (h : sizeMatchesLastWrite s) : sizeMatchesLastWrite (runFrom s t) := by
  induction t generalizing s with
  | nil => exact h
  | cons e t ih => exact ih (step s e) (step_lastWrite s e h)

lemma run_lastWrite (t : List Event) : sizeMatchesLastWrite (run t) :=
  runFrom_lastWrite t init0 (by simp [sizeMatchesLastWrite, init0])

lemma resize_nonneg (s : CanvasState) (h : nonnegState s) :
    nonnegState (resize s) := by
  unfold nonnegState resize at *
  split_ifs with hd
  · exact h
  · exact ⟨h.1, by simpa using mul_nonneg (Nat.cast_nonneg s.clientW) h.1,
      by simpa using mul_nonneg (Nat.cast_nonneg s.clientH) h.1, by simpa using h.2.2.2⟩

lemma step_nonneg (s : CanvasState) (e : Event) (he : envNonneg e)
    (h : nonnegState s) : nonnegState (step s e) := by
  cases e with
  | setEnv cw ch d =>
    exact ⟨he, h.2.1, h.2.2.1, by simpa using h.2.2.2⟩
  | mount b =>
    by_cases hm : s.mounted
    · simpa [step, mountEffect, hm] using h
    · cases b
      · have : nonnegState (mountEffect s false) := by
          simp only [step, mountEffect, hm, if_false, Bool.false_eq_true, if_neg]
          refine resize_nonneg _ ?_
          exact ⟨h.1, le_refl 0, le_refl 0, by simpa using h.2.2.2⟩
        simpa [step] using this
      · simpa [step, mountEffect, hm] using h
  | frame b =>
    unfold nonnegState at h ⊢
    simp only [step, frameCallback, requestRepaint]
    split_ifs <;>
      refine ⟨h.1, h.2.1, h.2.2.1, ?_⟩ <;>
      first
        | exact h.2.2.2
        | (intro p hp
           rcases List.mem_cons.mp hp with hp | hp
           · subst hp; exact ⟨h.2.1, h.2.2.1⟩
           · exact h.2.2.2 p hp)
  | timer =>
    simp only [step, timerCallback]
    split_ifs with ht
    · exact h
    · exact resize_nonneg _ ⟨h.1, h.2.1, h.2.2.1, by simpa using h.2.2.2⟩
  | viewport =>
    simp only [step, viewportEvent, requestResize]
    split_ifs with hl
    · have := resize_nonneg _ h
      exact ⟨this.1, this.2.1, this.2.2.1, by simpa using this.2.2.2⟩
    · exact h
  | unmount =>
    simp only [step, cleanupEffect]
    split_ifs <;> exact ⟨h.1, h.2.1, h.2.2.1, by simpa using h.2.2.2⟩

lemma runFrom_nonneg (t : List Event) (s : CanvasState)
    (ht : ∀ e ∈ t, envNonneg e) (h : nonnegState s) :
    nonnegState (runFrom s t) := by
  induction t generalizing s with
  | nil => exact h
  | cons e t ih =>
    exact ih (step s e) (fun x hx => ht x (List.mem_cons_of_mem e hx))
      (step_nonneg s e (ht e (List.mem_cons_self e t)) h)

lemma run_nonneg (t : List Event) (ht : ∀ e ∈ t, envNonneg e) :
    nonnegState (run t) :=
  runFrom_nonneg t init0 ht (by simp [nonnegState, init0])

/-- C1: for every mount/unmount cycle, the init function is invoked
exactly once (at mount) and the RenderContext release routine
`context.free()` exactly once (at unmount), the release occurring
strictly after the disposed flag has been set to true (the free call
observes `disposed = true`). -/
theorem claim_C1_init_free_once (pre mid post : List Event)
    (hpre : ∀ e ∈ pre, nonLifecycle e) (hmid : ∀ e ∈ mid, nonLifecycle e)
    (hpost : ∀ e ∈ post, nonLifecycle e) :
    (run (oneCycleTrace pre mid post)).initCalls = 1 ∧
    (run (oneCycleTrace pre mid post)).freeCalls = 1 ∧
    (run (oneCycleTrace pre mid post)).freeLog = [true] := by
  have h := oneCycle_spec pre mid post hpre hmid hpost
  exact ⟨h.1, h.2.1, h.2.2.1⟩

/-- Witness for C1: the minimal mount/unmount cycle. -/
theorem claim_C1_witness :
    (run (oneCycleTrace [] [] [])).initCalls = 1 ∧
    (run (oneCycleTrace [] [] [])).freeCalls = 1 ∧
    (run (oneCycleTrace [] [] [])).freeLog = [true] :=
  claim_C1_init_free_once [] [] [] (by simp) (by simp) (by simp)

/-- C2: from any disposed state (in particular one with frame callbacks
that were already queued before disposal), the disposed flag never
reverts to false and the paint callback is never invoked again, for any
continuation of the event loop without a remount. -/
theorem claim_C2_no_paint_after_disposal (s : CanvasState) (t : List Event)
    (hd : s.disposed = true) (hm : ∀ e ∈ t, nonMount e) :
    (runFrom s t).disposed = true ∧ (runFrom s t).paintLog = s.paintLog := by
  have h := runFrom_after_disposal t s hm hd
  exact ⟨h.1, h.2.1⟩

/-- Witness for C2: after teardown with one frame and one timer still
queued, firing them (plus a stray viewport event) paints nothing. -/
theorem claim_C2_witness :
    (runFrom disposedState [Event.frame false, Event.timer, Event.viewport]).disposed = true ∧
    (runFrom disposedState [Event.frame false, Event.timer, Event.viewport]).paintLog
      = disposedState.paintLog :=
  claim_C2_no_paint_after_disposal disposedState
    [Event.frame false, Event.timer, Event.viewport] (by rfl) (by decide)

/-- C3 as stated is false: one viewport event handled before disposal
would give 1 + 2 = 3 SurfaceSize writes, but each viewport event also
schedules a delayed write, so the trace mount, viewport, both timers,
unmount performs 4 writes. -/
theorem claim_C3_counterexample :
    (run [Event.setEnv 1 1 1, Event.mount false, Event.viewport,
          Event.timer, Event.timer, Event.unmount]).resizeLog.length = 4 ∧
    4 ≠ 1 + 2 := by
  constructor
  · norm_num [run, runFrom, step, mountEffect, requestResize, requestRepaint,
      resize, viewportEvent, timerCallback, cleanupEffect, init0]
  · decide

/-- C3 amended: every `requestResize` trigger (the mount itself and each
viewport event handled before disposal) performs exactly one immediate
SurfaceSize write and schedules exactly one delayed write; a scheduled
timer firing before disposal performs exactly one write; and after
disposal no write ever occurs.  So the total is twice the number of
viewport events handled before disposal plus the two mount writes when
every scheduled timer fires before disposal. -/
theorem claim_C3_write_count (s : CanvasState) (t : List Event) :
    (s.disposed = false → s.listeners = true →
      (step s Event.viewport).resizeLog.length = s.resizeLog.length + 1 ∧
      (step s Event.viewport).pendingTimers = s.pendingTimers + 1) ∧
    (s.disposed = false → 0 < s.pendingTimers →
      (step s Event.timer).resizeLog.length = s.resizeLog.length + 1 ∧
      (step s Event.timer).pendingTimers = s.pendingTimers - 1) ∧
    (s.mounted = false →
      (step s (Event.mount false)).resizeLog.length = s.resizeLog.length + 1 ∧
      (step s (Event.mount false)).pendingTimers = s.pendingTimers + 1) ∧
    (s.disposed = true → (∀ e ∈ t, nonMount e) →
      (runFrom s t).resizeLog = s.resizeLog) := by
  refine ⟨?_, ?_, ?_, ?_⟩
  · intro hd hl
    simp [step, viewportEvent, requestResize, resize, hd, hl]
  · intro hd hp
    simp [step, timerCallback, resize, hd, Nat.pos_iff_ne_zero.mp hp]
  · intro hm
    simp [step, mountEffect, requestResize, requestRepaint, resize, hm]
  · intro hd hm
    exact (runFrom_after_disposal t s hm hd).2.2.1

/-- Witness for C3 amended: instantiated in a running state for the
viewport, timer and disposal conjuncts, and at the initial state for the
mount conjunct. -/
theorem claim_C3_write_count_witness :
    (step runningState Event.viewport).resizeLog.length = runningState.resizeLog.length + 1 ∧
    (step runningState Event.timer).resizeLog.length = runningState.resizeLog.length + 1 ∧
    (step init0 (Event.mount false)).resizeLog.length = init0.resizeLog.length + 1 ∧
    (runFrom disposedState [Event.timer]).resizeLog = disposedState.resizeLog :=
  ⟨((claim_C3_write_count runningState []).1 (by rfl) (by rfl)).1,
   ((claim_C3_write_count runningState []).2.1 (by rfl) (by decide)).1,
   ((claim_C3_write_count init0 []).2.2.1 (by rfl)).1,
   (claim_C3_write_count disposedState [Event.timer]).2.2.2 (by rfl) (by decide)⟩

/-- C4: every resize recomputation in a non-disposed state stores
`(clientWidth * pixelDensity, clientHeight * pixelDensity)` and writes
the rounded values into the width/height attributes; in the concrete
scenario, client size 320x200 at density 2 gives a first write of
(640, 400) and a subsequent event with client size 400x200 gives a next
write of (800, 400). -/
theorem claim_C4_resize_values (s : CanvasState) (hd : s.disposed = false) :
    (resize s).size = ((s.clientW : ℚ) * s.density, (s.clientH : ℚ) * s.density) ∧
    (resize s).attr = (toFixed0 ((s.clientW : ℚ) * s.density),
                       toFixed0 ((s.clientH : ℚ) * s.density)) ∧
    (run [Event.setEnv 320 200 2, Event.mount false]).resizeLog
      = [((640 : ℚ), (400 : ℚ))] ∧
    (run [Event.setEnv 320 200 2, Event.mount false]).attr = ((640 : ℤ), (400 : ℤ)) ∧
    (run [Event.setEnv 320 200 2, Event.mount false, Event.setEnv 400 200 2,
          Event.viewport]).resizeLog
      = [((800 : ℚ), (400 : ℚ)), ((640 : ℚ), (400 : ℚ))] := by
  refine ⟨by simp [resize, hd], by simp [resize, hd], ?_, ?_, ?_⟩
  · norm_num [run, runFrom, step, mountEffect, requestResize, requestRepaint,
      resize, init0]
  · norm_num [run, runFrom, step, mountEffect, requestResize, requestRepaint,
      resize, init0, toFixed0]
  · norm_num [run, runFrom, step, mountEffect, requestResize, requestRepaint,
      resize, viewportEvent, init0]

/-- Witness for C4: the running state is not disposed. -/
theorem claim_C4_witness :
    (resize runningState).size
      = ((runningState.clientW : ℚ) * runningState.density,
         (runningState.clientH : ℚ) * runningState.density) :=
  (claim_C4_resize_values runningState (by rfl)).1

/-- C5 as stated is false: with client width 321 and device pixel ratio
3/2 the stored SurfaceSize width is 963/2, which is not an integer. -/
theorem claim_C5_counterexample :
    (run [Event.setEnv 321 200 (3/2), Event.mount false]).size.1 = 963 / 2 ∧
    ¬ ∃ n : ℤ, (run [Event.setEnv 321 200 (3/2), Event.mount false]).size.1 = (n : ℚ) := by
  have h : (run [Event.setEnv 321 200 (3/2), Event.mount false]).size.1 = 963 / 2 := by
    norm_num [run, runFrom, step, mountEffect, requestResize, requestRepaint,
      resize, init0]
  refine ⟨h, ?_⟩
  rw [h]
  rintro ⟨n, hn⟩
  have h2 : (963 : ℚ) = 2 * (n : ℚ) := by
    field_simp at hn
    linarith
  have h3 : (963 : ℤ) = 2 * n := by exact_mod_cast h2
  omega

/-- C5 amended: for every trace whose pixel ratios are non-negative, the
stored SurfaceSize components and every size passed to paint are
non-negative values (`clientWidth * density` and `clientHeight *
density`), but they are integers only when the density is; for
fractional densities they can be proper rationals. -/
theorem claim_C5_sizes_nonneg (t : List Event) (ht : ∀ e ∈ t, envNonneg e) :
    0 ≤ (run t).size.1 ∧ 0 ≤ (run t).size.2 ∧
    ∀ p ∈ (run t).paintLog, 0 ≤ p.1 ∧ 0 ≤ p.2 := by
  have h := run_nonneg t ht
  exact ⟨h.2.1, h.2.2.1, h.2.2.2⟩

/-- Witness for C5 amended. -/
theorem claim_C5_sizes_nonneg_witness :
    0 ≤ (run [Event.setEnv 2 3 2, Event.mount false, Event.frame false]).size.1 ∧
    0 ≤ (run [Event.setEnv 2 3 2, Event.mount false, Event.frame false]).size.2 ∧
    ∀ p ∈ (run [Event.setEnv 2 3 2, Event.mount false, Event.frame false]).paintLog,
      0 ≤ p.1 ∧ 0 ≤ p.2 :=
  claim_C5_sizes_nonneg [Event.setEnv 2 3 2, Event.mount false, Event.frame false]
    (by intro e he; fin_cases he <;> simp [envNonneg])

/-- C6: if a paint invocation throws, the frame callback consumed its
queued frame, logged that single invocation, and scheduled nothing, so
no event sequence without a remount can ever invoke paint again. -/
theorem claim_C6_paint_throw_halts (s : CanvasState) (t : List Event)
    (hd : s.disposed = false) (hf : s.pendingFrames = 1)
    (hm : ∀ e ∈ t, nonMount e) :
    (step s (Event.frame true)).pendingFrames = 0 ∧
    (step s (Event.frame true)).paintLog = s.size :: s.paintLog ∧
    (runFrom (step s (Event.frame true)) t).paintLog = s.size :: s.paintLog := by
  have h1 : (step s (Event.frame true)).pendingFrames = 0 ∧
      (step s (Event.frame true)).paintLog = s.size :: s.paintLog := by
    constructor <;> simp [step, frameCallback, hd, hf]
  have h2 := runFrom_no_pending_frames t (step s (Event.frame true)) hm h1.1
  exact ⟨h1.1, h1.2, h2.2.trans h1.2⟩

/-- Witness for C6: a throwing paint in the running state, followed by
more frame and timer events, paints exactly once. -/
theorem claim_C6_witness :
    (step runningState (Event.frame true)).pendingFrames = 0 ∧
    (step runningState (Event.frame true)).paintLog
      = runningState.size :: runningState.paintLog ∧
    (runFrom (step runningState (Event.frame true))
        [Event.frame false, Event.timer]).paintLog
      = runningState.size :: runningState.paintLog :=
  claim_C6_paint_throw_halts runningState [Event.frame false, Event.timer]
    (by rfl) (by rfl) (by decide)

/-- C7: if `init` throws at mount, the effect stops immediately: `init`
was called once and the error escapes to the caller, but no frame is
queued, no resize timer is scheduled, no listener is registered, no
SurfaceSize write happens and paint is never invoked.  The resulting
state differs from the premount state only in the init counter, the
error flag, and the recorded environment. -/
theorem claim_C7_init_throw (cw ch : ℕ) (d : ℚ) :
    run [Event.setEnv cw ch d, Event.mount true]
      = { init0 with clientW := cw, clientH := ch, density := d,
                     initCalls := 1, initError := true } := by
  rfl

/-- C8: every paint invocation observes exactly the most recently
completed SurfaceSize write (the head of the write log): width and
height always come from the same write. -/
theorem claim_C8_paint_sees_last_write (t : List Event)
    (hd : (run t).disposed = false) (hf : 0 < (run t).pendingFrames) :
    (run t).size = (run t).writeLog.headD ((0 : ℚ), (0 : ℚ)) ∧
    (step (run t) (Event.frame false)).paintLog
      = (run t).writeLog.headD ((0 : ℚ), (0 : ℚ)) :: (run t).paintLog := by
  have h := run_lastWrite t
  refine ⟨h, ?_⟩
  have hs : (step (run t) (Event.frame false)).paintLog
      = (run t).size :: (run t).paintLog := by
    simp [step, frameCallback, requestRepaint, hd, Nat.pos_iff_ne_zero.mp hf]
  rw [hs, h]

/-- Witness for C8: the first frame after a plain mount. -/
theorem claim_C8_witness :
    (run [Event.mount false]).size
      = (run [Event.mount false]).writeLog.headD ((0 : ℚ), (0 : ℚ)) ∧
    (step (run [Event.mount false]) (Event.frame false)).paintLog
      = (run [Event.mount false]).writeLog.headD ((0 : ℚ), (0 : ℚ))
          :: (run [Event.mount false]).paintLog :=
  claim_C8_paint_sees_last_write [Event.mount false] (by rfl) (by decide)

/-- C9: over a full mount/unmount cycle the viewport-change listeners
are registered exactly once (at mount, after successful init) and
deregistered exactly once (at unmount), and none remain registered after
teardown. -/
theorem claim_C9_listeners_once (pre mid post : List Event)
    (hpre : ∀ e ∈ pre, nonLifecycle e) (hmid : ∀ e ∈ mid, nonLifecycle e)
    (hpost : ∀ e ∈ post, nonLifecycle e) :
    (run (oneCycleTrace pre mid post)).addCount = 1 ∧
    (run (oneCycleTrace pre mid post)).removeCount = 1 ∧
    (run (oneCycleTrace pre mid post)).listeners = false := by
  have h := oneCycle_spec pre mid post hpre hmid hpost
  exact ⟨h.2.2.2.1, h.2.2.2.2.1, h.2.2.2.2.2.1⟩

/-- Witness for C9: the minimal cycle with a viewport event in the
middle. -/
theorem claim_C9_witness :
    (run (oneCycleTrace [] [Event.viewport] [])).addCount = 1 ∧
    (run (oneCycleTrace [] [Event.viewport] [])).removeCount = 1 ∧
    (run (oneCycleTrace [] [Event.viewport] [])).listeners = false :=
  claim_C9_listeners_once [] [Event.viewport] [] (by simp)
    (by simp [nonLifecycle]) (by simp)

/-- C10: the mount step runs the first resize synchronously, so after
mount the stored size is already the layout-derived value, and a first
frame callback (which can only run after the mount step completes)
paints exactly that value, not the (0, 0) placeholder assigned at the
start of the effect. -/
theorem claim_C10_first_paint (cw ch : ℕ) (d : ℚ) :
    (run [Event.setEnv cw ch d, Event.mount false]).size
      = ((cw : ℚ) * d, (ch : ℚ) * d) ∧
    (run [Event.setEnv cw ch d, Event.mount false]).resizeLog
      = [((cw : ℚ) * d, (ch : ℚ) * d)] ∧
    (run [Event.setEnv cw ch d, Event.mount false]).paintLog = [] ∧
    (run [Event.setEnv cw ch d, Event.mount false, Event.frame false]).paintLog
      = [((cw : ℚ) * d, (ch : ℚ) * d)] := by
  refine ⟨?_, ?_, ?_, ?_⟩ <;>
    simp [run, runFrom, step, mountEffect, requestResize, requestRepaint,
      resize, frameCallback, init0]
